import Mathlib

/-!
# Courier ALB rule compilation and listener-rule lookup

A shallow embedding of `pkg/provider/operations.go`:

* `ruleCreationInput` builds the `CreateRule` request of a `ListenerRule`;
* `createOrUpdateCourierALB` looks the rule of a priority up and either creates it in one
  shot or hands it to the gradual traffic shift.

Go pointers are `Option`s, slices are `List`s, maps are key-unique association lists whose
iteration order is chosen by the run time, service calls are functions of an explicit
environment and every call issued is recorded in a trace.
-/

namespace Courier

/-! ## Go run-time primitives -/

/-- The values of Go's `int`, a 64-bit two's-complement integer. -/
abbrev GoInt : Type := { x : Int // -9223372036854775808 ≤ x ∧ x ≤ 9223372036854775807 }

/-- The Go conversion `int64(x)`, on mathematical integers: reduction into the 64-bit
two's-complement range. -/
def int64 (x : Int) : Int :=
  (x + 9223372036854775808) % 18446744073709551616 - 9223372036854775808

/-- The Go function `strconv.Itoa`: the decimal rendering of an `int`, with a leading minus
sign for negative values. -/
def Itoa (n : GoInt) : String :=
  toString n.val

/-- The byte-wise fast path of `strings.ToUpper` for one ASCII character. -/
def asciiUpper (c : Char) : Char :=
  if 97 ≤ c.toNat ∧ c.toNat ≤ 122 then Char.ofNat (c.toNat - 32) else c

/-- The Go function `strings.ToUpper`.  A string of ASCII characters only is upper-cased
byte by byte; any other string is mapped rune by rune through `unicode.ToUpper`, the case
table of the Go standard library, which is the parameter `up`. -/
def ToUpper (up : Char → Char) (s : String) : String :=
  if s.data.all (fun c => decide (c.toNat < 128)) then
    String.mk (s.data.map asciiUpper)
  else
    String.mk (s.data.map up)

/-- The helper `aws.StringSlice`: a slice of strings becomes a slice of non-nil string
pointers. -/
def StringSlice (src : List String) : List (Option String) :=
  src.map some

/-- A Go `map[string]V`: an association list in which no key occurs twice. -/
structure GoMap (V : Type) where
  entries : List (String × V)
  nodupKeys : (entries.map Prod.fst).Nodup

namespace GoMap

/-- The empty (or nil) map. -/
def empty {V : Type} : GoMap V :=
  ⟨[], List.nodup_nil⟩

/-- The Go builtin `len` of a map. -/
def len {V : Type} (m : GoMap V) : Nat :=
  m.entries.length

/-- The keys of a map. -/
def keys {V : Type} (m : GoMap V) : List String :=
  m.entries.map Prod.fst

/-- One arrangement of a list, selected by `seed`: the head is inserted into the
arrangement of the tail at position `seed % length`. -/
def arrange {α : Type} : Nat → List α → List α
  | _, [] => []
  | seed, x :: xs =>
    (arrange (seed / (xs.length + 1)) xs).insertIdx (seed % (xs.length + 1)) x

/-- The entries visited by one `for k, v := range m` statement.  Go leaves the iteration
order of a map unspecified and randomises it; `seed` is the choice the run time makes for
this statement. -/
def range {V : Type} (seed : Nat) (m : GoMap V) : List (String × V) :=
  arrange seed m.entries

end GoMap

/-! ## The `elbv2` request and response types -/

/-- The SDK type `elbv2.HostHeaderConditionConfig`. -/
structure HostHeaderConditionConfig where
  Values : List (Option String)
  deriving DecidableEq, Repr

/-- The SDK type `elbv2.PathPatternConditionConfig`. -/
structure PathPatternConditionConfig where
  Values : List (Option String)
  deriving DecidableEq, Repr

/-- The SDK type `elbv2.HttpRequestMethodConditionConfig`. -/
structure HttpRequestMethodConditionConfig where
  Values : List (Option String)
  deriving DecidableEq, Repr

/-- The SDK type `elbv2.SourceIpConditionConfig`. -/
structure SourceIpConditionConfig where
  Values : List (Option String)
  deriving DecidableEq, Repr

/-- The SDK type `elbv2.HttpHeaderConditionConfig`. -/
structure HttpHeaderConditionConfig where
  HttpHeaderName : Option String
  Values : List (Option String)
  deriving DecidableEq, Repr

/-- The SDK type `elbv2.QueryStringKeyValuePair`. -/
structure QueryStringKeyValuePair where
  Key : Option String
  Value : Option String
  deriving DecidableEq, Repr

/-- The SDK type `elbv2.QueryStringConditionConfig`. -/
structure QueryStringConditionConfig where
  Values : List QueryStringKeyValuePair
  deriving DecidableEq, Repr

/-- The SDK type `elbv2.RuleCondition`; a field left out of a composite literal is nil. -/
structure RuleCondition where
  Field : Option String := none
  HostHeaderConfig : Option HostHeaderConditionConfig := none
  HttpHeaderConfig : Option HttpHeaderConditionConfig := none
  HttpRequestMethodConfig : Option HttpRequestMethodConditionConfig := none
  PathPatternConfig : Option PathPatternConditionConfig := none
  QueryStringConfig : Option QueryStringConditionConfig := none
  SourceIpConfig : Option SourceIpConditionConfig := none
  Values : List (Option String) := []
  deriving DecidableEq, Repr

/-- The SDK type `elbv2.TargetGroupTuple`. -/
structure TargetGroupTuple where
  TargetGroupArn : Option String
  Weight : Option Int
  deriving DecidableEq, Repr

/-- The SDK type `elbv2.TargetGroupStickinessConfig`. -/
structure TargetGroupStickinessConfig where
  DurationSeconds : Option Int
  Enabled : Option Bool
  deriving DecidableEq, Repr

/-- The SDK type `elbv2.ForwardActionConfig`. -/
structure ForwardActionConfig where
  TargetGroupStickinessConfig : Option TargetGroupStickinessConfig
  TargetGroups : List TargetGroupTuple
  deriving DecidableEq, Repr

/-- The SDK type `elbv2.Action`, with the fields a forward action can carry; `Type_` is the
SDK field `Type`. -/
structure Action where
  ForwardConfig : Option ForwardActionConfig := none
  Order : Option Int := none
  TargetGroupArn : Option String := none
  Type_ : Option String := none
  deriving DecidableEq, Repr

/-- The SDK type `elbv2.CreateRuleInput`. -/
structure CreateRuleInput where
  Actions : List Action
  Conditions : List RuleCondition
  ListenerArn : Option String
  Priority : Option Int
  deriving DecidableEq, Repr

/-- The SDK type `elbv2.Rule`, an element of a `DescribeRules` or `CreateRule` response. -/
structure Rule where
  Actions : List Action := []
  Conditions : List RuleCondition := []
  IsDefault : Option Bool := none
  Priority : Option String := none
  RuleArn : Option String := none
  deriving DecidableEq, Repr

/-- The SDK type `elbv2.TargetGroup`, by the fields that identify it. -/
structure TargetGroup where
  TargetGroupArn : Option String := none
  TargetGroupName : Option String := none
  deriving DecidableEq, Repr

/-- The SDK type `elbv2.Listener`, by the fields that identify it. -/
structure Listener where
  ListenerArn : Option String := none
  LoadBalancerArn : Option String := none
  deriving DecidableEq, Repr

/-! ## The `courier` types -/

/-- Modelled from the spec: the declaration of `courier.Destination` is not among the
sources; the spec gives it as `{TargetGroupARN: string, Weight: int}`. -/
structure Destination where
  TargetGroupARN : String
  Weight : GoInt
  deriving DecidableEq

/-- Modelled from the spec: the declaration of `courier.ListenerRule` is not among the
sources; the spec gives its fields as the listener ARN, the integer priority, the ordered
sequences `Hosts`, `PathPatterns`, `Methods` and `SourceIPs`, the mapping `Headers` from
header name to a sequence of values, the mapping `QueryStrings` from key to value, and the
ordered sequence `Destinations`. -/
structure ListenerRule where
  ListenerARN : String := ""
  Priority : GoInt := ⟨0, by decide⟩
  Hosts : List String := []
  PathPatterns : List String := []
  Methods : List String := []
  SourceIPs : List String := []
  Headers : GoMap (List String) := GoMap.empty
  QueryStrings : GoMap String := GoMap.empty
  Destinations : List Destination := []

/-! ## `ruleCreationInput` -/

/-- The loop `for i, m := range listenerRule.Methods { methods[i] = strings.ToUpper(m) }`
over the slice `methods := make([]string, len(listenerRule.Methods))`. -/
def upperMethods (up : Char → Char) (ms : List String) : List String :=
  ms.enum.foldl (fun methods im => methods.set im.1 (ToUpper up im.2))
    (List.replicate ms.length "")

/-- The loop over `listenerRule.Headers` that appends one `http-header` condition per map
entry, in the order in which the run time visits the map. -/
def headerConditions (seed : Nat) (headers : GoMap (List String))
    (ruleConditions : List RuleCondition) : List RuleCondition :=
  (headers.range seed).foldl
    (fun conds nv => conds ++ [{ Field := some "http-header"
                                 HttpHeaderConfig := some
                                   { HttpHeaderName := some nv.1
                                     Values := StringSlice nv.2 } }])
    ruleConditions

/-- The loop over `listenerRule.QueryStrings` that appends one key/value pair per map entry
to the nil slice `vs`, in the order in which the run time visits the map. -/
def queryPairs (seed : Nat) (queryStrings : GoMap String) : List QueryStringKeyValuePair :=
  (queryStrings.range seed).foldl
    (fun vs kv => vs ++ [{ Key := some kv.1, Value := some kv.2 }])
    []

/-- The value of the local variable `ruleConditions` when the request is assembled: the
six guarded appends of `ruleCreationInput`, in source order. -/
def ruleConditions (up : Char → Char) (hdrSeed qsSeed : Nat) (listenerRule : ListenerRule) :
    List RuleCondition :=
  let c0 : List RuleCondition := []
  let c1 :=
    if listenerRule.Hosts.length > 0 then
      c0 ++ [{ Field := some "host-header"
               HostHeaderConfig := some { Values := StringSlice listenerRule.Hosts } }]
    else c0
  let c2 :=
    if listenerRule.PathPatterns.length > 0 then
      c1 ++ [{ Field := some "path-pattern"
               PathPatternConfig := some { Values := StringSlice listenerRule.PathPatterns } }]
    else c1
  let c3 :=
    if listenerRule.Methods.length > 0 then
      let methods := upperMethods up listenerRule.Methods
      c2 ++ [{ Field := some "http-request-method"
               HttpRequestMethodConfig := some { Values := StringSlice methods } }]
    else c2
  let c4 :=
    if listenerRule.SourceIPs.length > 0 then
      c3 ++ [{ Field := some "source-ip"
               SourceIpConfig := some { Values := StringSlice listenerRule.SourceIPs } }]
    else c3
  let c5 :=
    if listenerRule.Headers.len > 0 then
      headerConditions hdrSeed listenerRule.Headers c4
    else c4
  let c6 :=
    if listenerRule.QueryStrings.len > 0 then
      let vs := queryPairs qsSeed listenerRule.QueryStrings
      c5 ++ [{ Field := some "query-string"
               QueryStringConfig := some { Values := vs } }]
    else c5
  c6

/-- The loop over `listenerRule.Destinations` that appends one target-group tuple per
destination to the empty slice `tgs`. -/
def targetGroupTuples (destinations : List Destination) : List TargetGroupTuple :=
  destinations.foldl
    (fun tgs d => tgs ++ [{ TargetGroupArn := some d.TargetGroupARN
                            Weight := some (int64 d.Weight.val) }])
    []

/-- What a call of `ruleCreationInput` leaves behind: the two return values and the
`ListenerRule` the argument points to, as it is after the call. -/
structure RuleCreation where
  createRuleInput : CreateRuleInput
  err : Option String
  listenerRule : ListenerRule

/-- The function `ruleCreationInput(listenerARN, listenerRule)`.  `up` is the case table of
`strings.ToUpper`; `hdrSeed` and `qsSeed` are the iteration orders the run time picks for
the two `range` statements over maps.  The function never assigns through `listenerRule`,
so the pointee is handed back as it came. -/
def ruleCreationInput (up : Char → Char) (hdrSeed qsSeed : Nat) (listenerARN : String)
    (listenerRule : ListenerRule) : RuleCreation :=
  let ruleConditions := ruleConditions up hdrSeed qsSeed listenerRule
  let tgs := targetGroupTuples listenerRule.Destinations
  let createRuleInput : CreateRuleInput :=
    { Actions := [{ ForwardConfig := some { TargetGroupStickinessConfig := none
                                            TargetGroups := tgs }
                    Type_ := some "forward" }]
      Priority := some (int64 listenerRule.Priority.val)
      Conditions := ruleConditions
      ListenerArn := some listenerARN }
  { createRuleInput := createRuleInput, err := none, listenerRule := listenerRule }

/-! ## `createOrUpdateCourierALB` -/

/-- Modelled from the spec: the declaration of `courier.Metric` is not among the sources;
the spec gives it as a provider tag together with the provider-specific query and
threshold fields, kept here as one uninterpreted declaration. -/
structure Metric where
  Provider : String
  Declaration : String
  deriving DecidableEq, Repr

/-- Modelled from the spec: the declaration of `courier.ListenerStatus` is not among the
sources; the fields are those of the composite literal in `createOrUpdateCourierALB`. -/
structure ListenerStatus where
  Listener : Listener
  Rule : Rule
  ALBAttachments : List String
  DesiredTG : TargetGroup
  CurrentTG : TargetGroup
  DeletedTGs : List TargetGroup
  Metrics : List Metric
  deriving DecidableEq, Repr

/-- Modelled from the spec: the declaration of `courier.CanaryOpts` is not among the
sources; the fields are those of the composite literal in `createOrUpdateCourierALB`, the
interval being a `time.Duration` in nanoseconds. -/
structure CanaryOpts where
  CanaryAdvancementInterval : Int
  CanaryAdvancementStep : Int
  Region : String
  ClusterName : String
  deriving DecidableEq, Repr

/-- One element of the `destination` list of the resource data: the keys
`target_group_arn` and `weight` of the block. -/
structure DestinationBlock where
  target_group_arn : String
  weight : GoInt
  deriving DecidableEq

/-- The resource data `d`, by the keys `createOrUpdateCourierALB` reads with `d.Get`; a key
whose value is nil is `none`. -/
structure ResourceData where
  region : Option String := none
  address : Option String := none
  listener_arn : String
  priority : GoInt
  datadog_metric : Option (List String) := none
  cloudwatch_metric : Option (List String) := none
  destination : Option (List DestinationBlock) := none

/-- The session made by `awsclicompat.NewSession(region)`, with the endpoint override that
`createOrUpdateCourierALB` writes into its configuration. -/
structure Session where
  Region : String
  Endpoint : Option String := none
  deriving DecidableEq, Repr

/-- The `elbv2` client of a session together with `courier.DoGradualTrafficShift` run on
that client: each operation maps its request to the error or the response it returns. -/
structure Service where
  DescribeRules : Option String → Except String (List Rule)
  CreateRule : CreateRuleInput → Except String (List Rule)
  DescribeTargetGroups : List (Option String) → Except String (List TargetGroup)
  DescribeListeners : List (Option String) → Except String (List Listener)
  DoGradualTrafficShift : ListenerStatus → CanaryOpts → Option String

/-- The collaborators of `createOrUpdateCourierALB` that are not among the sources: the
client constructor `elbv2.New` and the configuration readers `courier.ReadListenerRule` and
`courier.LoadMetrics`. -/
structure World where
  New : Session → Service
  ReadListenerRule : ResourceData → Except String ListenerRule
  LoadMetrics : List String → Except String (List Metric)

/-- A call that leaves the process: an `elbv2` operation with its request, or the gradual
traffic shift with its arguments. -/
inductive Call where
  | DescribeRules (ListenerArn : Option String)
  | CreateRule (input : CreateRuleInput)
  | DescribeTargetGroups (TargetGroupArns : List (Option String))
  | DescribeListeners (ListenerArns : List (Option String))
  | DoGradualTrafficShift (l : ListenerStatus) (opts : CanaryOpts)
  deriving DecidableEq, Repr

/-- How a run of a Go function ends: it returns its `error` result, nil or not, or it
panics. -/
inductive Outcome where
  | returned (err : Option String)
  | panicked (reason : String)
  deriving DecidableEq, Repr

/-- A finished run: how it ended and the calls it issued, oldest first. -/
structure Run where
  outcome : Outcome
  calls : List Call
  deriving DecidableEq, Repr

/-- The rule lookup
`for _, r := range o.Rules { if r.Priority != nil && *r.Priority == priorityStr { rule = r } }`
starting from `var rule *elbv2.Rule`. -/
def lookupRule (rules : List Rule) (priorityStr : String) : Option Rule :=
  rules.foldl (fun rule r => if r.Priority = some priorityStr then some r else rule) none

/-- The loop `for i := range ms { ms[i].Provider = provider }`. -/
def tagProvider (provider : String) (ms : List Metric) : List Metric :=
  (List.range ms.length).foldl
    (fun ms i => ms.modify (fun m => { m with Provider := provider }) i) ms

/-- The two blocks that load the `datadog_metric` and `cloudwatch_metric` declarations into
`metrics`, tagging each with its provider. -/
def loadMetrics (w : World) (d : ResourceData) : Except String (List Metric) :=
  let metrics : List Metric := []
  let step1 : Except String (List Metric) :=
    match d.datadog_metric with
    | some v =>
      match w.LoadMetrics v with
      | .error err => .error err
      | .ok ms => .ok (tagProvider "datadog" ms)
    | none => .ok metrics
  match step1 with
  | .error err => .error err
  | .ok metrics =>
    match d.cloudwatch_metric with
    | some v =>
      match w.LoadMetrics v with
      | .error err => .error err
      | .ok ms => .ok (metrics ++ tagProvider "cloudwatch" ms)
    | none => .ok metrics

/-- The loop that turns the `destination` blocks of the resource data into
`destinations`, starting from the nil slice. -/
def readDestinations (d : ResourceData) : List Destination :=
  match d.destination with
  | some v =>
    v.foldl
      (fun destinations m =>
        destinations ++ [{ TargetGroupARN := m.target_group_arn, Weight := m.weight }])
      []
  | none => []

/-- The branch of `createOrUpdateCourierALB` taken when a rule exists at the priority.  The
index expressions `destinations[0]`, `destinations[1]`, `Listeners[0]`, `TargetGroups[0]` and
`TargetGroups[1]` panic when the slice is too short. -/
def shiftExisting (svc : Service) (lr : ListenerRule) (rule : Rule) (metrics : List Metric)
    (destinations : List Destination) (calls : List Call) : Run :=
  match destinations with
  | [] => ⟨.panicked "index out of range [0] with length 0", calls⟩
  | [_] => ⟨.panicked "index out of range [1] with length 1", calls⟩
  | d0 :: d1 :: _ =>
    let tgARNs : String × String :=
      if d0.Weight.val > d1.Weight.val then
        (d0.TargetGroupARN, d1.TargetGroupARN)
      else
        (d1.TargetGroupARN, d0.TargetGroupARN)
    let nextTGARN := tgARNs.1
    let prevTGARN := tgARNs.2
    let calls := calls ++ [Call.DescribeTargetGroups [some nextTGARN, some prevTGARN]]
    match svc.DescribeTargetGroups [some nextTGARN, some prevTGARN] with
    | .error err => ⟨.returned (some err), calls⟩
    | .ok r1 =>
      let calls := calls ++ [Call.DescribeListeners (StringSlice [lr.ListenerARN])]
      match svc.DescribeListeners (StringSlice [lr.ListenerARN]) with
      | .error err => ⟨.returned (some err), calls⟩
      | .ok listeners =>
        match listeners, r1 with
        | [], _ => ⟨.panicked "index out of range [0] with length 0", calls⟩
        | _ :: _, [] => ⟨.panicked "index out of range [0] with length 0", calls⟩
        | _ :: _, [_] => ⟨.panicked "index out of range [1] with length 1", calls⟩
        | listener :: _, tg0 :: tg1 :: _ =>
          let l : ListenerStatus :=
            { Listener := listener
              Rule := rule
              ALBAttachments := []
              DesiredTG := tg0
              CurrentTG := tg1
              DeletedTGs := []
              Metrics := metrics }
          let opts : CanaryOpts :=
            { CanaryAdvancementInterval := 1 * 1000000000
              CanaryAdvancementStep := 50
              Region := ""
              ClusterName := "" }
          let calls := calls ++ [Call.DoGradualTrafficShift l opts]
          match svc.DoGradualTrafficShift l opts with
          | some err => ⟨.returned (some err), calls⟩
          | none => ⟨.returned none, calls⟩

/-- The branch of `createOrUpdateCourierALB` taken when no rule exists at the priority: the
rule is compiled with the configured destinations and created in one call; `o.Rules[0]`
panics when the response carries no rule. -/
def createNew (up : Char → Char) (hdrSeed qsSeed : Nat) (svc : Service) (listenerARN : String)
    (lr : ListenerRule) (destinations : List Destination) (calls : List Call) : Run :=
  let lr : ListenerRule := { lr with Destinations := destinations }
  let createRuleInput := (ruleCreationInput up hdrSeed qsSeed listenerARN lr).createRuleInput
  let calls := calls ++ [Call.CreateRule createRuleInput]
  match svc.CreateRule createRuleInput with
  | .error err => ⟨.returned (some err), calls⟩
  | .ok o =>
    match o with
    | [] => ⟨.panicked "index out of range [0] with length 0", calls⟩
    | _ :: _ => ⟨.returned none, calls⟩

/-- The opening of `createOrUpdateCourierALB`: the session of the configured region (the
empty string when the key is nil), with the configured address as its endpoint when the
key is not nil. -/
def newSession (d : ResourceData) : Session :=
  let region : String :=
    match d.region with
    | some v => v
    | none => ""
  let sess : Session := { Region := region }
  match d.address with
  | some v => { sess with Endpoint := some v }
  | none => sess

/-- The function `createOrUpdateCourierALB(d)`.  `w` holds the collaborators, `up` the case
table of `strings.ToUpper`, and `hdrSeed`, `qsSeed` the map iteration orders that
`ruleCreationInput` meets. -/
def createOrUpdateCourierALB (up : Char → Char) (hdrSeed qsSeed : Nat) (w : World)
    (d : ResourceData) : Run :=
  let sess := newSession d
  let svc := w.New sess
  let listenerARN := d.listener_arn
  let calls := [Call.DescribeRules (some listenerARN)]
  match svc.DescribeRules (some listenerARN) with
  | .error err => ⟨.returned (some err), calls⟩
  | .ok o =>
    let priority := d.priority
    let priorityStr := Itoa priority
    let rule := lookupRule o priorityStr
    match w.ReadListenerRule d with
    | .error err => ⟨.returned (some err), calls⟩
    | .ok lr =>
      match loadMetrics w d with
      | .error err => ⟨.returned (some err), calls⟩
      | .ok metrics =>
        let destinations := readDestinations d
        match rule with
        | none => createNew up hdrSeed qsSeed svc listenerARN lr destinations calls
        | some rule => shiftExisting svc lr rule metrics destinations calls

/-! ## Vocabulary of the statements -/

/-- The condition literal of the `Hosts` block of `ruleCreationInput`. -/
def hostHeaderCondition (hosts : List String) : RuleCondition :=
  { Field := some "host-header"
    HostHeaderConfig := some { Values := StringSlice hosts } }

/-- The condition literal of the `PathPatterns` block of `ruleCreationInput`. -/
def pathPatternCondition (pathPatterns : List String) : RuleCondition :=
  { Field := some "path-pattern"
    PathPatternConfig := some { Values := StringSlice pathPatterns } }

/-- The condition literal of the `Methods` block of `ruleCreationInput`, over the values it
is given. -/
def httpRequestMethodCondition (methods : List String) : RuleCondition :=
  { Field := some "http-request-method"
    HttpRequestMethodConfig := some { Values := StringSlice methods } }

/-- The condition literal of the `SourceIPs` block of `ruleCreationInput`. -/
def sourceIpCondition (sourceIPs : List String) : RuleCondition :=
  { Field := some "source-ip"
    SourceIpConfig := some { Values := StringSlice sourceIPs } }

/-- The condition literal of the `Headers` loop of `ruleCreationInput`, for one entry. -/
def httpHeaderCondition (name : String) (values : List String) : RuleCondition :=
  { Field := some "http-header"
    HttpHeaderConfig := some { HttpHeaderName := some name, Values := StringSlice values } }

/-- The pair literal of the `QueryStrings` loop of `ruleCreationInput`, for one entry. -/
def queryStringPair (k v : String) : QueryStringKeyValuePair :=
  { Key := some k, Value := some v }

/-- The condition literal of the `QueryStrings` block of `ruleCreationInput`, over the pairs
it is given. -/
def queryStringCondition (vs : List QueryStringKeyValuePair) : RuleCondition :=
  { Field := some "query-string"
    QueryStringConfig := some { Values := vs } }

/-- The tuple literal of the `Destinations` loop of `ruleCreationInput`, with the weight as
configured. -/
def targetGroupTuple (d : Destination) : TargetGroupTuple :=
  { TargetGroupArn := some d.TargetGroupARN, Weight := some d.Weight.val }

/-- The action literal of `ruleCreationInput`, over the tuples it is given. -/
def forwardAction (tgs : List TargetGroupTuple) : Action :=
  { ForwardConfig := some { TargetGroupStickinessConfig := none, TargetGroups := tgs }
    Type_ := some "forward" }

/-! ## Example inputs -/

/-- A header map with two names. -/
def exampleHeaders : GoMap (List String) :=
  ⟨[("X-Env", ["blue"]), ("X-Tier", ["a", "b"])], by decide⟩

/-- A query-string map with two keys. -/
def exampleQueryStrings : GoMap String :=
  ⟨[("v", "2"), ("lang", "en")], by decide⟩

/-- A rule that sets hosts, path patterns, methods, headers and query strings. -/
def exampleRule : ListenerRule :=
  { ListenerARN := "listener-1"
    Priority := ⟨10, by decide⟩
    Hosts := ["a.com"]
    PathPatterns := ["/x"]
    Methods := ["get"]
    Headers := exampleHeaders
    QueryStrings := exampleQueryStrings
    Destinations := [⟨"tg-a", ⟨90, by decide⟩⟩, ⟨"tg-b", ⟨10, by decide⟩⟩] }

/-- A rule at priority 10. -/
def exampleRuleA : Rule :=
  { Priority := some "10", RuleArn := some "rule-a" }

/-- Another rule at priority 10. -/
def exampleRuleB : Rule :=
  { Priority := some "10", RuleArn := some "rule-b" }

/-- A client whose listener holds `exampleRuleA` and `exampleRuleB`, whose directories
answer every ARN in request order and whose writes succeed. -/
def exampleService : Service :=
  { DescribeRules := fun _ => .ok [exampleRuleA, exampleRuleB]
    CreateRule := fun _ => .ok [{ Priority := some "10", RuleArn := some "rule-new" }]
    DescribeTargetGroups := fun arns => .ok (arns.map fun a => { TargetGroupArn := a })
    DescribeListeners := fun arns => .ok (arns.map fun a => { ListenerArn := a })
    DoGradualTrafficShift := fun _ _ => none }

/-- Collaborators that read a rule without match conditions and accept every metric. -/
def exampleWorld : World :=
  { New := fun _ => exampleService
    ReadListenerRule := fun d => .ok { ListenerARN := d.listener_arn, Priority := d.priority }
    LoadMetrics := fun raw => .ok (raw.map fun r => { Provider := "", Declaration := r }) }

/-- Resource data for priority 10 with the destinations `tg-a` at weight 90 and `tg-b` at
weight 10. -/
def exampleData : ResourceData :=
  { listener_arn := "listener-1"
    priority := ⟨10, by decide⟩
    destination := some [⟨"tg-a", ⟨90, by decide⟩⟩, ⟨"tg-b", ⟨10, by decide⟩⟩] }

/-- Resource data for priority 10 with the single destination `tg-a`. -/
def exampleDataOneDestination : ResourceData :=
  { listener_arn := "listener-1"
    priority := ⟨10, by decide⟩
    destination := some [⟨"tg-a", ⟨100, by decide⟩⟩] }

/-- A rule at priority 20. -/
def exampleRuleOther : Rule :=
  { Priority := some "20", RuleArn := some "rule-other" }

/-- A client like `exampleService` whose listener holds a rule at priority 20 and the
default rule, which has no numeric priority. -/
def exampleServiceNoMatch : Service :=
  { exampleService with
    DescribeRules := fun _ =>
      .ok [exampleRuleOther, { Priority := some "default", IsDefault := some true }] }

/-- Collaborators like `exampleWorld` over `exampleServiceNoMatch`. -/
def exampleWorldNoMatch : World :=
  { exampleWorld with New := fun _ => exampleServiceNoMatch }

/-! ## Lemmas on the run-time primitives -/

/-- A loop that appends one element per visited item builds the mapped list. -/
theorem foldl_append_singleton {α β : Type} (f : α → β) (l : List α) (init : List β) :
    l.foldl (fun acc x => acc ++ [f x]) init = init ++ l.map f := by
  induction l generalizing init with
  | nil => simp
  | cons x xs ih => simp [ih]

/-- The conversion `int64` leaves every value of `int` as it is. -/
theorem int64_val (n : GoInt) : int64 n.val = n.val := by
  obtain ⟨x, h1, h2⟩ := n
  simp only [int64]
  omega

/-- An arrangement is as long as the list it arranges. -/
theorem GoMap.length_arrange {α : Type} (seed : Nat) (l : List α) :
    (GoMap.arrange seed l).length = l.length := by
  induction l generalizing seed with
  | nil => rfl
  | cons x xs ih =>
    have hlt : seed % (xs.length + 1) ≤ (GoMap.arrange (seed / (xs.length + 1)) xs).length := by
      rw [ih]
      exact Nat.le_of_lt_succ (Nat.mod_lt _ (Nat.succ_pos _))
    simp only [GoMap.arrange]
    rw [List.length_insertIdx _ _ hlt, ih, List.length_cons]

/-- An arrangement is a permutation of the list it arranges. -/
theorem GoMap.arrange_perm {α : Type} (seed : Nat) (l : List α) :
    (GoMap.arrange seed l).Perm l := by
  induction l generalizing seed with
  | nil => exact List.Perm.refl _
  | cons x xs ih =>
    have hlt : seed % (xs.length + 1) ≤ (GoMap.arrange (seed / (xs.length + 1)) xs).length := by
      rw [GoMap.length_arrange]
      exact Nat.le_of_lt_succ (Nat.mod_lt _ (Nat.succ_pos _))
    simp only [GoMap.arrange]
    exact (List.perm_insertIdx x _ hlt).trans ((ih _).cons x)

/-- A `range` statement visits a permutation of the entries of the map. -/
theorem GoMap.range_perm {V : Type} (seed : Nat) (m : GoMap V) :
    (m.range seed).Perm m.entries :=
  GoMap.arrange_perm seed m.entries

/-- A `range` statement visits as many entries as the map holds. -/
theorem GoMap.length_range {V : Type} (seed : Nat) (m : GoMap V) :
    (m.range seed).length = m.entries.length :=
  GoMap.length_arrange seed m.entries

/-- No key is visited twice by a `range` statement. -/
theorem GoMap.nodup_range_keys {V : Type} (seed : Nat) (m : GoMap V) :
    ((m.range seed).map Prod.fst).Nodup :=
  ((GoMap.range_perm seed m).map Prod.fst).nodup_iff.mpr m.nodupKeys

/-- Inserting after a prefix puts the element between the prefix and the rest. -/
theorem insertIdx_length_append {α : Type} (x : α) (a b : List α) :
    (a ++ b).insertIdx a.length x = a ++ x :: b := by
  induction a with
  | nil => simp
  | cons y a ih => simp [List.insertIdx_succ_cons, ih]

/-- Every ordering of a list is the arrangement of some seed: no iteration order is left
out of the run-time choices. -/
theorem GoMap.arrange_surjective {α : Type} (l p : List α) (h : p.Perm l) :
    ∃ seed, GoMap.arrange seed l = p := by
  induction l generalizing p with
  | nil => exact ⟨0, by rw [h.eq_nil]; rfl⟩
  | cons x xs ih =>
    have hx : x ∈ p := h.symm.subset (List.mem_cons_self x xs)
    obtain ⟨a, b, rfl⟩ := List.append_of_mem hx
    have hab : (a ++ b).Perm xs := (List.perm_middle.symm.trans h).cons_inv
    obtain ⟨seed, hseed⟩ := ih (a ++ b) hab
    have hlen : a.length < xs.length + 1 := by
      have := hab.length_eq
      simp only [List.length_append] at this
      omega
    refine ⟨a.length + (xs.length + 1) * seed, ?_⟩
    have hmod : (a.length + (xs.length + 1) * seed) % (xs.length + 1) = a.length := by
      rw [Nat.add_mul_mod_self_left, Nat.mod_eq_of_lt hlen]
    have hdiv : (a.length + (xs.length + 1) * seed) / (xs.length + 1) = seed := by
      rw [Nat.add_mul_div_left _ _ (Nat.succ_pos _), Nat.div_eq_of_lt hlen, Nat.zero_add]
    simp only [GoMap.arrange, hmod, hdiv, hseed]
    exact insertIdx_length_append x a b

/-- Every ordering of the entries of a map is visited by a `range` statement under some
run-time choice. -/
theorem GoMap.range_surjective {V : Type} (m : GoMap V) (p : List (String × V))
    (h : p.Perm m.entries) : ∃ seed, m.range seed = p :=
  GoMap.arrange_surjective m.entries p h

/-! ## Lemmas on `ruleCreationInput` -/

/-- The loop that fills `methods` writes the upper-cased form of each configured method at
the position of that method. -/
theorem upperMethods_fill (f : String → String) (ms pre post : List String)
    (hlen : post.length = ms.length) :
    (ms.enumFrom pre.length).foldl (fun methods im => methods.set im.1 (f im.2)) (pre ++ post)
      = pre ++ ms.map f := by
  induction ms generalizing pre post with
  | nil =>
    cases post with
    | nil => simp
    | cons p ps => simp at hlen
  | cons m ms ih =>
    cases post with
    | nil => simp at hlen
    | cons p ps =>
      have hps : ps.length = ms.length := by simpa using hlen
      have h := ih (pre ++ [f m]) ps hps
      simp only [List.length_append, List.length_singleton] at h
      simp only [List.enumFrom_cons, List.foldl_cons, List.map_cons]
      rw [List.set_append_right _ _ (Nat.le_refl _)]
      simp only [Nat.sub_self, List.set_cons_zero]
      simpa [List.append_assoc] using h

/-- The slice `methods` ends up as the configured methods, each upper-cased, in order. -/
theorem upperMethods_eq (up : Char → Char) (ms : List String) :
    upperMethods up ms = ms.map (ToUpper up) := by
  have h := upperMethods_fill (ToUpper up) ms [] (List.replicate ms.length "") (by simp)
  simpa [upperMethods, List.enum] using h

/-- The header loop appends the condition of each visited entry, in visiting order. -/
theorem headerConditions_eq (seed : Nat) (headers : GoMap (List String))
    (conds : List RuleCondition) :
    headerConditions seed headers conds =
      conds ++ (headers.range seed).map
        (fun nv => { Field := some "http-header"
                     HttpHeaderConfig := some { HttpHeaderName := some nv.1
                                                Values := StringSlice nv.2 } }) := by
  simp only [headerConditions]
  exact foldl_append_singleton _ _ _

/-- The query-string loop collects the pair of each visited entry, in visiting order. -/
theorem queryPairs_eq (seed : Nat) (queryStrings : GoMap String) :
    queryPairs seed queryStrings =
      (queryStrings.range seed).map (fun kv => { Key := some kv.1, Value := some kv.2 }) := by
  simp only [queryPairs]
  rw [foldl_append_singleton]
  simp

/-- The destination loop collects the tuple of each destination, in order, with the weight
unchanged. -/
theorem targetGroupTuples_eq (destinations : List Destination) :
    targetGroupTuples destinations =
      destinations.map
        (fun d => { TargetGroupArn := some d.TargetGroupARN, Weight := some d.Weight.val }) := by
  simp only [targetGroupTuples]
  rw [foldl_append_singleton]
  simp [int64_val]

/-- A `range` statement over a map without entries visits nothing. -/
theorem GoMap.range_eq_nil {V : Type} (seed : Nat) (m : GoMap V) (h : m.entries = []) :
    m.range seed = [] := by
  simp [GoMap.range, h, GoMap.arrange]

/-- The conditions of a request, block by block: the four list-valued fields in source
order, then one condition per visited header entry, then the query-string condition. -/
theorem ruleConditions_eq (up : Char → Char) (hdrSeed qsSeed : Nat) (lr : ListenerRule) :
    ruleConditions up hdrSeed qsSeed lr =
      (if lr.Hosts = [] then [] else
        [{ Field := some "host-header"
           HostHeaderConfig := some { Values := StringSlice lr.Hosts } }]) ++
      ((if lr.PathPatterns = [] then [] else
        [{ Field := some "path-pattern"
           PathPatternConfig := some { Values := StringSlice lr.PathPatterns } }]) ++
      ((if lr.Methods = [] then [] else
        [{ Field := some "http-request-method"
           HttpRequestMethodConfig :=
             some { Values := StringSlice (lr.Methods.map (ToUpper up)) } }]) ++
      ((if lr.SourceIPs = [] then [] else
        [{ Field := some "source-ip"
           SourceIpConfig := some { Values := StringSlice lr.SourceIPs } }]) ++
      ((lr.Headers.range hdrSeed).map
        (fun nv => { Field := some "http-header"
                     HttpHeaderConfig := some { HttpHeaderName := some nv.1
                                                Values := StringSlice nv.2 } }) ++
      (if lr.QueryStrings.entries = [] then [] else
        [{ Field := some "query-string"
           QueryStringConfig := some
             { Values := (lr.QueryStrings.range qsSeed).map
                 (fun kv => { Key := some kv.1, Value := some kv.2 }) } }]))))) := by
  have hpos : ∀ {α : Type} (l : List α), (l.length > 0) = (l ≠ []) := by
    intro α l
    cases l <;> simp
  have hH : (if lr.Headers.len > 0 then
        (lr.Headers.range hdrSeed).map
          (fun nv => ({ Field := some "http-header"
                        HttpHeaderConfig := some { HttpHeaderName := some nv.1
                                                   Values := StringSlice nv.2 } } : RuleCondition))
      else []) = (lr.Headers.range hdrSeed).map
          (fun nv => ({ Field := some "http-header"
                        HttpHeaderConfig := some { HttpHeaderName := some nv.1
                                                   Values := StringSlice nv.2 } } : RuleCondition)) := by
    split
    · rfl
    · rename_i h
      have h0 : lr.Headers.entries = [] := by
        cases hE : lr.Headers.entries with
        | nil => rfl
        | cons a b => simp [GoMap.len, hE] at h
      simp [GoMap.range_eq_nil hdrSeed lr.Headers h0]
  simp only [ruleConditions, headerConditions_eq, queryPairs_eq, upperMethods_eq, GoMap.len,
    hpos]
  rw [← hH]
  by_cases h1 : lr.Hosts = [] <;> by_cases h2 : lr.PathPatterns = [] <;>
    by_cases h3 : lr.Methods = [] <;> by_cases h4 : lr.SourceIPs = [] <;>
    by_cases h5 : lr.Headers.entries = [] <;> by_cases h6 : lr.QueryStrings.entries = [] <;>
    simp [h1, h2, h3, h4, h5, h6, GoMap.len]

/-- The conditions of a request in the vocabulary of the statements. -/
theorem ruleConditions_blocks (up : Char → Char) (hdrSeed qsSeed : Nat) (lr : ListenerRule) :
    ruleConditions up hdrSeed qsSeed lr =
      (if lr.Hosts = [] then [] else [hostHeaderCondition lr.Hosts]) ++
      ((if lr.PathPatterns = [] then [] else [pathPatternCondition lr.PathPatterns]) ++
      ((if lr.Methods = [] then [] else
          [httpRequestMethodCondition (lr.Methods.map (ToUpper up))]) ++
      ((if lr.SourceIPs = [] then [] else [sourceIpCondition lr.SourceIPs]) ++
      ((lr.Headers.range hdrSeed).map (fun nv => httpHeaderCondition nv.1 nv.2) ++
      (if lr.QueryStrings.entries = [] then [] else
        [queryStringCondition
          ((lr.QueryStrings.range qsSeed).map (fun kv => queryStringPair kv.1 kv.2))]))))) :=
  ruleConditions_eq up hdrSeed qsSeed lr

/-- The conditions of the request are the local variable `ruleConditions`. -/
theorem ruleCreationInput_conditions (up : Char → Char) (hdrSeed qsSeed : Nat) (arn : String)
    (lr : ListenerRule) :
    (ruleCreationInput up hdrSeed qsSeed arn lr).createRuleInput.Conditions =
      ruleConditions up hdrSeed qsSeed lr :=
  rfl

/-- Every condition of a request is one of the six literals of `ruleCreationInput`, over
the configured values. -/
theorem mem_ruleConditions {up : Char → Char} {hdrSeed qsSeed : Nat} {lr : ListenerRule}
    {c : RuleCondition} (h : c ∈ ruleConditions up hdrSeed qsSeed lr) :
    c = hostHeaderCondition lr.Hosts ∨ c = pathPatternCondition lr.PathPatterns ∨
    c = httpRequestMethodCondition (lr.Methods.map (ToUpper up)) ∨
    c = sourceIpCondition lr.SourceIPs ∨
    (∃ nv ∈ lr.Headers.entries, c = httpHeaderCondition nv.1 nv.2) ∨
    c = queryStringCondition
      ((lr.QueryStrings.range qsSeed).map (fun kv => queryStringPair kv.1 kv.2)) := by
  rw [ruleConditions_blocks] at h
  simp only [List.mem_append] at h
  rcases h with h | h | h | h | h | h
  · split at h
    · simp at h
    · exact Or.inl (by simpa using h)
  · split at h
    · simp at h
    · exact Or.inr (Or.inl (by simpa using h))
  · split at h
    · simp at h
    · exact Or.inr (Or.inr (Or.inl (by simpa using h)))
  · split at h
    · simp at h
    · exact Or.inr (Or.inr (Or.inr (Or.inl (by simpa using h))))
  · obtain ⟨nv, hnv, rfl⟩ := List.mem_map.mp h
    exact Or.inr (Or.inr (Or.inr (Or.inr (Or.inl
      ⟨nv, (GoMap.range_perm hdrSeed lr.Headers).mem_iff.mp hnv, rfl⟩))))
  · split at h
    · simp at h
    · exact Or.inr (Or.inr (Or.inr (Or.inr (Or.inr (by simpa using h)))))

/-- No header condition carries a field name other than `http-header`. -/
theorem filter_field_headers (field : String) (hf : field ≠ "http-header")
    (l : List (String × List String)) :
    (l.map (fun nv => httpHeaderCondition nv.1 nv.2)).filter
      (fun c => decide (c.Field = some field)) = [] := by
  rw [List.filter_eq_nil_iff]
  intro c hc
  obtain ⟨nv, _, rfl⟩ := List.mem_map.mp hc
  simp [httpHeaderCondition, Ne.symm hf]

/-- In a list without repeated keys, the entries under the key of a member are that member
alone. -/
theorem filter_key_eq_singleton {V : Type} (l : List (String × V))
    (hnd : (l.map Prod.fst).Nodup) (nv : String × V) (hmem : nv ∈ l) :
    l.filter (fun e => decide (e.1 = nv.1)) = [nv] := by
  induction l with
  | nil => simp at hmem
  | cons e es ih =>
    simp only [List.map_cons, List.nodup_cons] at hnd
    obtain ⟨hnot, hnd⟩ := hnd
    rcases List.mem_cons.mp hmem with rfl | hmem
    · have hnil : es.filter (fun e => decide (e.1 = nv.1)) = [] := by
        rw [List.filter_eq_nil_iff]
        intro e he
        have : e.1 ≠ nv.1 := fun heq => hnot (heq ▸ List.mem_map_of_mem Prod.fst he)
        simpa using this
      simp [hnil]
    · have hne : e.1 ≠ nv.1 := fun heq => hnot (heq ▸ List.mem_map_of_mem Prod.fst hmem)
      simp [hne, ih hnd hmem]

/-- A list with at most one element has a single arrangement. -/
theorem GoMap.arrange_of_length_le_one {α : Type} (seed : Nat) (l : List α)
    (h : l.length ≤ 1) : GoMap.arrange seed l = l := by
  match l, h with
  | [], _ => rfl
  | [x], _ => simp [GoMap.arrange, Nat.mod_one]
  | _ :: _ :: _, h => simp at h

/-- Among the header conditions of a key-unique list, the ones for the name of a member are
the condition of that member alone. -/
theorem filter_header_name (l : List (String × List String)) (hnd : (l.map Prod.fst).Nodup)
    (nv : String × List String) (hmem : nv ∈ l) :
    (l.map (fun e => httpHeaderCondition e.1 e.2)).filter
        (fun c => decide (c.Field = some "http-header" ∧
          c.HttpHeaderConfig.bind (fun h => h.HttpHeaderName) = some nv.1))
      = [httpHeaderCondition nv.1 nv.2] := by
  rw [List.filter_map]
  have hfun : ((fun c : RuleCondition => decide (c.Field = some "http-header" ∧
        c.HttpHeaderConfig.bind (fun h => h.HttpHeaderName) = some nv.1)) ∘
        fun e : String × List String => httpHeaderCondition e.1 e.2)
      = fun e => decide (e.1 = nv.1) := by
    funext e
    simp [httpHeaderCondition]
  rw [hfun, filter_key_eq_singleton l hnd nv hmem]
  rfl

/-- C4: the request holds one condition for each non-empty field among hosts, path
patterns, methods and source IPs, one per distinct header name and one for a non-empty
query-string map; hosts `a.com`, path `/x` and method `get` alone give three conditions,
and a rule without any match field gives none. -/
theorem ruleCreationInput_condition_count (up : Char → Char) (hdrSeed qsSeed : Nat)
    (listenerARN : String) (lr : ListenerRule) :
    (ruleCreationInput up hdrSeed qsSeed listenerARN lr).createRuleInput.Conditions.length =
        (if lr.Hosts ≠ [] then 1 else 0) + (if lr.PathPatterns ≠ [] then 1 else 0) +
        (if lr.Methods ≠ [] then 1 else 0) + (if lr.SourceIPs ≠ [] then 1 else 0) +
        lr.Headers.keys.toFinset.card + (if lr.QueryStrings.entries ≠ [] then 1 else 0)
    ∧ (ruleCreationInput up hdrSeed qsSeed listenerARN
        { lr with Hosts := ["a.com"], PathPatterns := ["/x"], Methods := ["get"],
                  SourceIPs := [], Headers := GoMap.empty, QueryStrings := GoMap.empty }
        ).createRuleInput.Conditions.length = 3
    ∧ (ruleCreationInput up hdrSeed qsSeed listenerARN
        { lr with Hosts := [], PathPatterns := [], Methods := [],
                  SourceIPs := [], Headers := GoMap.empty, QueryStrings := GoMap.empty }
        ).createRuleInput.Conditions.length = 0 := by
  refine ⟨?_, ?_, ?_⟩
  · have hcard : lr.Headers.keys.toFinset.card = lr.Headers.entries.length := by
      unfold GoMap.keys
      rw [List.toFinset_card_of_nodup lr.Headers.nodupKeys]
      simp
    rw [ruleCreationInput_conditions, ruleConditions_blocks, hcard]
    simp only [List.length_append, List.length_map, GoMap.length_range]
    by_cases h1 : lr.Hosts = [] <;> by_cases h2 : lr.PathPatterns = [] <;>
      by_cases h3 : lr.Methods = [] <;> by_cases h4 : lr.SourceIPs = [] <;>
      by_cases h6 : lr.QueryStrings.entries = [] <;>
      simp [h1, h2, h3, h4, h6] <;> omega
  · rw [ruleCreationInput_conditions, ruleConditions_blocks]
    simp [GoMap.empty, GoMap.range, GoMap.arrange]
  · rw [ruleCreationInput_conditions, ruleConditions_blocks]
    simp [GoMap.empty, GoMap.range, GoMap.arrange]

/-- C5: the request holds exactly one action, of type `forward`, whose target-group tuples
are the destinations in order with ARN and weight unchanged (none for a rule without
destinations); its priority is that of the rule, its listener ARN the given one, and no
error is returned. -/
theorem ruleCreationInput_forward_action (up : Char → Char) (hdrSeed qsSeed : Nat)
    (listenerARN : String) (lr : ListenerRule) :
    (ruleCreationInput up hdrSeed qsSeed listenerARN lr).createRuleInput.Actions =
        [{ ForwardConfig := some { TargetGroupStickinessConfig := none
                                   TargetGroups := lr.Destinations.map
                                     (fun d => { TargetGroupArn := some d.TargetGroupARN
                                                 Weight := some d.Weight.val }) }
           Type_ := some "forward" }]
    ∧ (lr.Destinations.map
        (fun d => ({ TargetGroupArn := some d.TargetGroupARN
                     Weight := some d.Weight.val } : TargetGroupTuple))).length =
        lr.Destinations.length
    ∧ (ruleCreationInput up hdrSeed qsSeed listenerARN lr).createRuleInput.Priority =
        some lr.Priority.val
    ∧ (ruleCreationInput up hdrSeed qsSeed listenerARN lr).createRuleInput.ListenerArn =
        some listenerARN
    ∧ (ruleCreationInput up hdrSeed qsSeed listenerARN lr).err = none := by
  refine ⟨?_, by simp, ?_, rfl, rfl⟩
  · simp only [ruleCreationInput, targetGroupTuples_eq]
  · simp only [ruleCreationInput, int64_val]

/-- C6: with methods configured, the `http-request-method` condition carries the configured
methods in order, each upper-cased (`get` becomes `GET`); the `Methods` of the rule are as
before the call, and every other condition carries its configured values verbatim. -/
theorem ruleCreationInput_methods_upper_cased (up : Char → Char) (hdrSeed qsSeed : Nat)
    (listenerARN : String) (lr : ListenerRule) (hm : lr.Methods ≠ []) :
    (ruleCreationInput up hdrSeed qsSeed listenerARN lr).createRuleInput.Conditions.filter
        (fun c => decide (c.Field = some "http-request-method"))
      = [{ Field := some "http-request-method"
           HttpRequestMethodConfig :=
             some { Values := lr.Methods.map (fun m => some (ToUpper up m)) } }]
    ∧ (lr.Methods.map (fun m => some (ToUpper up m))).length = lr.Methods.length
    ∧ (∀ i : Nat, (lr.Methods.map (fun m => some (ToUpper up m)))[i]? =
        lr.Methods[i]?.map (fun m => some (ToUpper up m)))
    ∧ ToUpper up "get" = "GET"
    ∧ (ruleCreationInput up hdrSeed qsSeed listenerARN lr).listenerRule.Methods = lr.Methods
    ∧ (∀ c ∈ (ruleCreationInput up hdrSeed qsSeed listenerARN lr).createRuleInput.Conditions,
        c.Field ≠ some "http-request-method" →
          c = hostHeaderCondition lr.Hosts ∨ c = pathPatternCondition lr.PathPatterns ∨
          c = sourceIpCondition lr.SourceIPs ∨
          (∃ nv ∈ lr.Headers.entries, c = httpHeaderCondition nv.1 nv.2) ∨
          (∃ vs : List (String × String), vs.Perm lr.QueryStrings.entries ∧
            c = queryStringCondition (vs.map (fun kv => queryStringPair kv.1 kv.2)))) := by
  refine ⟨?_, by simp, fun i => by simp, rfl, rfl, ?_⟩
  · rw [ruleCreationInput_conditions, ruleConditions_blocks]
    simp only [List.filter_append, filter_field_headers "http-request-method" (by decide)]
    by_cases h1 : lr.Hosts = [] <;> by_cases h2 : lr.PathPatterns = [] <;>
      by_cases h4 : lr.SourceIPs = [] <;> by_cases h6 : lr.QueryStrings.entries = [] <;>
      simp [h1, h2, hm, h4, h6, hostHeaderCondition, pathPatternCondition,
        httpRequestMethodCondition, sourceIpCondition, queryStringCondition, StringSlice]
  · intro c hc hfield
    rw [ruleCreationInput_conditions] at hc
    rcases mem_ruleConditions hc with h | h | h | h | h | h
    · exact Or.inl h
    · exact Or.inr (Or.inl h)
    · exact absurd (by rw [h]; rfl) hfield
    · exact Or.inr (Or.inr (Or.inl h))
    · exact Or.inr (Or.inr (Or.inr (Or.inl h)))
    · exact Or.inr (Or.inr (Or.inr (Or.inr
        ⟨lr.QueryStrings.range qsSeed, GoMap.range_perm qsSeed lr.QueryStrings, h⟩)))

/-- The rule `exampleRule` has methods, and its request carries the single method condition
with the value `GET`. -/
theorem ruleCreationInput_methods_upper_cased_witness :
    exampleRule.Methods ≠ [] ∧
    (ruleCreationInput id 0 0 "listener-1" exampleRule).createRuleInput.Conditions.filter
        (fun c => decide (c.Field = some "http-request-method"))
      = [{ Field := some "http-request-method"
           HttpRequestMethodConfig :=
             some { Values := exampleRule.Methods.map (fun m => some (ToUpper id m)) } }] :=
  ⟨by decide,
    (ruleCreationInput_methods_upper_cased id 0 0 "listener-1" exampleRule (by decide)).1⟩

/-- C7: for each of the fields `host-header`, `path-pattern`, `http-request-method` and
`source-ip` the request holds no condition when the configured list is empty and otherwise
exactly one, whose values are the configured values in order (methods upper-cased). -/
theorem ruleCreationInput_list_conditions (up : Char → Char) (hdrSeed qsSeed : Nat)
    (listenerARN : String) (lr : ListenerRule) :
    (ruleCreationInput up hdrSeed qsSeed listenerARN lr).createRuleInput.Conditions.filter
        (fun c => decide (c.Field = some "host-header"))
      = (if lr.Hosts ≠ [] then
          [{ Field := some "host-header"
             HostHeaderConfig := some { Values := lr.Hosts.map some } }]
         else [])
    ∧ (ruleCreationInput up hdrSeed qsSeed listenerARN lr).createRuleInput.Conditions.filter
        (fun c => decide (c.Field = some "path-pattern"))
      = (if lr.PathPatterns ≠ [] then
          [{ Field := some "path-pattern"
             PathPatternConfig := some { Values := lr.PathPatterns.map some } }]
         else [])
    ∧ (ruleCreationInput up hdrSeed qsSeed listenerARN lr).createRuleInput.Conditions.filter
        (fun c => decide (c.Field = some "http-request-method"))
      = (if lr.Methods ≠ [] then
          [{ Field := some "http-request-method"
             HttpRequestMethodConfig :=
               some { Values := lr.Methods.map (fun m => some (ToUpper up m)) } }]
         else [])
    ∧ (ruleCreationInput up hdrSeed qsSeed listenerARN lr).createRuleInput.Conditions.filter
        (fun c => decide (c.Field = some "source-ip"))
      = (if lr.SourceIPs ≠ [] then
          [{ Field := some "source-ip"
             SourceIpConfig := some { Values := lr.SourceIPs.map some } }]
         else []) := by
  rw [ruleCreationInput_conditions, ruleConditions_blocks]
  simp only [List.filter_append]
  refine ⟨?_, ?_, ?_, ?_⟩
  all_goals
    first
      | rw [filter_field_headers "host-header" (by decide)]
      | rw [filter_field_headers "path-pattern" (by decide)]
      | rw [filter_field_headers "http-request-method" (by decide)]
      | rw [filter_field_headers "source-ip" (by decide)]
    by_cases h1 : lr.Hosts = [] <;> by_cases h2 : lr.PathPatterns = [] <;>
      by_cases h3 : lr.Methods = [] <;> by_cases h4 : lr.SourceIPs = [] <;>
      by_cases h6 : lr.QueryStrings.entries = [] <;>
      simp [h1, h2, h3, h4, h6, hostHeaderCondition, pathPatternCondition,
        httpRequestMethodCondition, sourceIpCondition, queryStringCondition, StringSlice]

/-- C8: for every name of the header map the request holds exactly one `http-header`
condition with that name, carrying the values configured for it in order; and every
`http-header` condition of the request is the condition of an entry of the map. -/
theorem ruleCreationInput_header_conditions (up : Char → Char) (hdrSeed qsSeed : Nat)
    (listenerARN : String) (lr : ListenerRule) :
    (∀ nv ∈ lr.Headers.entries,
      (ruleCreationInput up hdrSeed qsSeed listenerARN lr).createRuleInput.Conditions.filter
          (fun c => decide (c.Field = some "http-header" ∧
            c.HttpHeaderConfig.bind (fun h => h.HttpHeaderName) = some nv.1))
        = [{ Field := some "http-header"
             HttpHeaderConfig := some { HttpHeaderName := some nv.1
                                        Values := nv.2.map some } }])
    ∧ (∀ c ∈ (ruleCreationInput up hdrSeed qsSeed listenerARN lr).createRuleInput.Conditions,
        c.Field = some "http-header" →
          ∃ nv ∈ lr.Headers.entries,
            c = { Field := some "http-header"
                  HttpHeaderConfig := some { HttpHeaderName := some nv.1
                                             Values := nv.2.map some } }) := by
  refine ⟨?_, ?_⟩
  · intro nv hnv
    rw [ruleCreationInput_conditions, ruleConditions_blocks]
    simp only [List.filter_append]
    rw [filter_header_name _ (GoMap.nodup_range_keys hdrSeed lr.Headers) nv
      ((GoMap.range_perm hdrSeed lr.Headers).mem_iff.mpr hnv)]
    by_cases h1 : lr.Hosts = [] <;> by_cases h2 : lr.PathPatterns = [] <;>
      by_cases h3 : lr.Methods = [] <;> by_cases h4 : lr.SourceIPs = [] <;>
      by_cases h6 : lr.QueryStrings.entries = [] <;>
      simp [h1, h2, h3, h4, h6, hostHeaderCondition, pathPatternCondition,
        httpRequestMethodCondition, sourceIpCondition, queryStringCondition,
        httpHeaderCondition, StringSlice]
  · intro c hc hfield
    rw [ruleCreationInput_conditions] at hc
    rcases mem_ruleConditions hc with h | h | h | h | h | h
    · rw [h] at hfield; simp [hostHeaderCondition] at hfield
    · rw [h] at hfield; simp [pathPatternCondition] at hfield
    · rw [h] at hfield; simp [httpRequestMethodCondition] at hfield
    · rw [h] at hfield; simp [sourceIpCondition] at hfield
    · exact h
    · rw [h] at hfield; simp [queryStringCondition] at hfield

/-- C9: with query strings configured the request holds exactly one `query-string` condition,
whose pairs are the entries of the map, each key once with its value, in the order the run
time visits them; without query strings it holds no such condition. -/
theorem ruleCreationInput_query_string_condition (up : Char → Char) (hdrSeed qsSeed : Nat)
    (listenerARN : String) (lr : ListenerRule) :
    ∃ vs : List (String × String),
      vs.Perm lr.QueryStrings.entries ∧ (vs.map Prod.fst).Nodup ∧
      (ruleCreationInput up hdrSeed qsSeed listenerARN lr).createRuleInput.Conditions.filter
          (fun c => decide (c.Field = some "query-string"))
        = (if lr.QueryStrings.entries ≠ [] then
            [{ Field := some "query-string"
               QueryStringConfig := some
                 { Values := vs.map (fun kv => { Key := some kv.1, Value := some kv.2 }) } }]
           else []) := by
  refine ⟨lr.QueryStrings.range qsSeed, GoMap.range_perm qsSeed lr.QueryStrings,
    GoMap.nodup_range_keys qsSeed lr.QueryStrings, ?_⟩
  rw [ruleCreationInput_conditions, ruleConditions_blocks]
  simp only [List.filter_append, filter_field_headers "query-string" (by decide)]
  by_cases h1 : lr.Hosts = [] <;> by_cases h2 : lr.PathPatterns = [] <;>
    by_cases h3 : lr.Methods = [] <;> by_cases h4 : lr.SourceIPs = [] <;>
    by_cases h6 : lr.QueryStrings.entries = [] <;>
    simp [h1, h2, h3, h4, h6, hostHeaderCondition, pathPatternCondition,
      httpRequestMethodCondition, sourceIpCondition, queryStringCondition, queryStringPair]

/-- Two calls on `exampleRule` whose map iterations take different orders return different
requests: the header conditions come as `X-Env`, `X-Tier` in one and as `X-Tier`, `X-Env`
in the other. -/
theorem ruleCreationInput_order_counterexample :
    (ruleCreationInput id 0 0 "listener-1" exampleRule).createRuleInput ≠
      (ruleCreationInput id 1 1 "listener-1" exampleRule).createRuleInput
    ∧ (ruleCreationInput id 0 0 "listener-1" exampleRule).createRuleInput.Conditions.filterMap
        (fun c => c.HttpHeaderConfig.bind (fun h => h.HttpHeaderName)) = ["X-Env", "X-Tier"]
    ∧ (ruleCreationInput id 1 1 "listener-1" exampleRule).createRuleInput.Conditions.filterMap
        (fun c => c.HttpHeaderConfig.bind (fun h => h.HttpHeaderName)) = ["X-Tier", "X-Env"] := by
  decide

/-- C10, amended: two calls on the same arguments return requests with the same action,
priority and listener ARN, the same sequence of condition fields, the same host, path,
method and source-IP conditions in the same order, the same `http-header` conditions up to
order and `query-string` conditions over the same pairs up to order; the requests are
identical when the header map and the query-string map hold at most one entry each. -/
theorem ruleCreationInput_same_up_to_map_order (up : Char → Char)
    (hdrSeed1 qsSeed1 hdrSeed2 qsSeed2 : Nat) (listenerARN : String) (lr : ListenerRule) :
    (ruleCreationInput up hdrSeed1 qsSeed1 listenerARN lr).createRuleInput.Actions =
      (ruleCreationInput up hdrSeed2 qsSeed2 listenerARN lr).createRuleInput.Actions
    ∧ (ruleCreationInput up hdrSeed1 qsSeed1 listenerARN lr).createRuleInput.Priority =
      (ruleCreationInput up hdrSeed2 qsSeed2 listenerARN lr).createRuleInput.Priority
    ∧ (ruleCreationInput up hdrSeed1 qsSeed1 listenerARN lr).createRuleInput.ListenerArn =
      (ruleCreationInput up hdrSeed2 qsSeed2 listenerARN lr).createRuleInput.ListenerArn
    ∧ (ruleCreationInput up hdrSeed1 qsSeed1 listenerARN lr).createRuleInput.Conditions.map
        (fun c => c.Field) =
      (ruleCreationInput up hdrSeed2 qsSeed2 listenerARN lr).createRuleInput.Conditions.map
        (fun c => c.Field)
    ∧ (ruleCreationInput up hdrSeed1 qsSeed1 listenerARN lr).createRuleInput.Conditions.filter
        (fun c => decide (c.Field ≠ some "http-header" ∧ c.Field ≠ some "query-string")) =
      (ruleCreationInput up hdrSeed2 qsSeed2 listenerARN lr).createRuleInput.Conditions.filter
        (fun c => decide (c.Field ≠ some "http-header" ∧ c.Field ≠ some "query-string"))
    ∧ ((ruleCreationInput up hdrSeed1 qsSeed1 listenerARN lr).createRuleInput.Conditions.filter
        (fun c => decide (c.Field = some "http-header"))).Perm
      ((ruleCreationInput up hdrSeed2 qsSeed2 listenerARN lr).createRuleInput.Conditions.filter
        (fun c => decide (c.Field = some "http-header")))
    ∧ (∃ vs1 vs2 : List QueryStringKeyValuePair, vs1.Perm vs2 ∧
        (ruleCreationInput up hdrSeed1 qsSeed1 listenerARN lr).createRuleInput.Conditions.filter
            (fun c => decide (c.Field = some "query-string"))
          = (if lr.QueryStrings.entries ≠ [] then [queryStringCondition vs1] else []) ∧
        (ruleCreationInput up hdrSeed2 qsSeed2 listenerARN lr).createRuleInput.Conditions.filter
            (fun c => decide (c.Field = some "query-string"))
          = (if lr.QueryStrings.entries ≠ [] then [queryStringCondition vs2] else []))
    ∧ (lr.Headers.len ≤ 1 → lr.QueryStrings.len ≤ 1 →
        (ruleCreationInput up hdrSeed1 qsSeed1 listenerARN lr).createRuleInput =
          (ruleCreationInput up hdrSeed2 qsSeed2 listenerARN lr).createRuleInput) := by
  have hfilterH : ∀ (p : RuleCondition → Bool) (l : List (String × List String)),
      (∀ nv : String × List String, p (httpHeaderCondition nv.1 nv.2) = true) →
      (l.map (fun nv => httpHeaderCondition nv.1 nv.2)).filter p =
        l.map (fun nv => httpHeaderCondition nv.1 nv.2) := by
    intro p l hp
    rw [List.filter_eq_self]
    intro c hc
    obtain ⟨nv, _, rfl⟩ := List.mem_map.mp hc
    exact hp nv
  have hfilterN : ∀ (p : RuleCondition → Bool) (l : List (String × List String)),
      (∀ nv : String × List String, p (httpHeaderCondition nv.1 nv.2) = false) →
      (l.map (fun nv => httpHeaderCondition nv.1 nv.2)).filter p = [] := by
    intro p l hp
    rw [List.filter_eq_nil_iff]
    intro c hc
    obtain ⟨nv, _, rfl⟩ := List.mem_map.mp hc
    simp [hp nv]
  have hperm : (lr.Headers.range hdrSeed1).Perm (lr.Headers.range hdrSeed2) :=
    (GoMap.range_perm hdrSeed1 lr.Headers).trans (GoMap.range_perm hdrSeed2 lr.Headers).symm
  have hpermQ : (lr.QueryStrings.range qsSeed1).Perm (lr.QueryStrings.range qsSeed2) :=
    (GoMap.range_perm qsSeed1 lr.QueryStrings).trans
      (GoMap.range_perm qsSeed2 lr.QueryStrings).symm
  refine ⟨rfl, rfl, rfl, ?_, ?_, ?_, ?_, ?_⟩
  · simp only [ruleCreationInput_conditions, ruleConditions_blocks, List.map_append,
      List.map_map]
    have hconst : ∀ l : List (String × List String),
        List.map ((fun c : RuleCondition => c.Field) ∘
          fun nv : String × List String => httpHeaderCondition nv.1 nv.2) l =
          List.replicate l.length (some "http-header") := by
      intro l
      induction l with
      | nil => rfl
      | cons a l ih =>
        rw [List.map_cons, ih, List.length_cons, List.replicate_succ]
        rfl
    rw [hconst, hconst, GoMap.length_range, GoMap.length_range]
    by_cases h6 : lr.QueryStrings.entries = [] <;> simp [h6, queryStringCondition]
  · simp only [ruleCreationInput_conditions, ruleConditions_blocks, List.filter_append]
    rw [hfilterN _ _ (by intro nv; simp [httpHeaderCondition]),
      hfilterN _ _ (by intro nv; simp [httpHeaderCondition])]
    by_cases h6 : lr.QueryStrings.entries = [] <;> simp [h6, queryStringCondition]
  · simp only [ruleCreationInput_conditions, ruleConditions_blocks, List.filter_append]
    rw [hfilterH _ _ (by intro nv; simp [httpHeaderCondition]),
      hfilterH _ _ (by intro nv; simp [httpHeaderCondition])]
    have hq : ∀ vs : List QueryStringKeyValuePair,
        (if lr.QueryStrings.entries = [] then []
          else [queryStringCondition vs]).filter
            (fun c => decide (c.Field = some "http-header")) = [] := by
      intro vs
      split <;> simp [queryStringCondition]
    rw [hq, hq]
    exact List.Perm.append_left _ (List.Perm.append_left _ (List.Perm.append_left _
      (List.Perm.append_left _ (List.Perm.append_right _
        (hperm.map fun nv => httpHeaderCondition nv.1 nv.2)))))
  · refine ⟨(lr.QueryStrings.range qsSeed1).map (fun kv => queryStringPair kv.1 kv.2),
      (lr.QueryStrings.range qsSeed2).map (fun kv => queryStringPair kv.1 kv.2),
      hpermQ.map _, ?_, ?_⟩
    all_goals
      simp only [ruleCreationInput_conditions, ruleConditions_blocks, List.filter_append,
        filter_field_headers "query-string" (by decide)]
      by_cases h1 : lr.Hosts = [] <;> by_cases h2 : lr.PathPatterns = [] <;>
        by_cases h3 : lr.Methods = [] <;> by_cases h4 : lr.SourceIPs = [] <;>
        by_cases h6 : lr.QueryStrings.entries = [] <;>
        simp [h1, h2, h3, h4, h6, hostHeaderCondition, pathPatternCondition,
          httpRequestMethodCondition, sourceIpCondition, queryStringCondition]
  · intro hH hQ
    have e1 : ∀ seed, lr.Headers.range seed = lr.Headers.entries :=
      fun seed => GoMap.arrange_of_length_le_one seed _ hH
    have e2 : ∀ seed, lr.QueryStrings.range seed = lr.QueryStrings.entries :=
      fun seed => GoMap.arrange_of_length_le_one seed _ hQ
    have hc : ruleConditions up hdrSeed1 qsSeed1 lr = ruleConditions up hdrSeed2 qsSeed2 lr := by
      simp only [ruleConditions_blocks, e1, e2]
    simp only [ruleCreationInput, hc]

/-! ## Theorems on `createOrUpdateCourierALB` -/

/-- The lookup after one more rule: that rule when it matches, the earlier result when not. -/
theorem lookupRule_concat (rules : List Rule) (r : Rule) (priorityStr : String) :
    lookupRule (rules ++ [r]) priorityStr =
      if r.Priority = some priorityStr then some r else lookupRule rules priorityStr := by
  simp [lookupRule, List.foldl_append]

/-- The lookup yields the last rule of the list whose priority is the string looked for. -/
theorem lookupRule_eq_getLast? (rules : List Rule) (priorityStr : String) :
    lookupRule rules priorityStr =
      (rules.filter (fun r => decide (r.Priority = some priorityStr))).getLast? := by
  induction rules using List.reverseRecOn with
  | nil => rfl
  | append_singleton rs r ih =>
    rw [lookupRule_concat, ih, List.filter_append]
    by_cases hp : r.Priority = some priorityStr
    · simp [hp]
    · simp [hp]

/-- With the lookups of the opening done and a rule found, the run is the existing-rule
branch. -/
theorem createOrUpdateCourierALB_existing (up : Char → Char) (hdrSeed qsSeed : Nat)
    (w : World) (d : ResourceData) (rules : List Rule) (rule : Rule) (lr : ListenerRule)
    (metrics : List Metric)
    (hrules : (w.New (newSession d)).DescribeRules (some d.listener_arn) = .ok rules)
    (hrule : lookupRule rules (Itoa d.priority) = some rule)
    (hlr : w.ReadListenerRule d = .ok lr)
    (hmetrics : loadMetrics w d = .ok metrics) :
    createOrUpdateCourierALB up hdrSeed qsSeed w d =
      shiftExisting (w.New (newSession d)) lr rule metrics (readDestinations d)
        [Call.DescribeRules (some d.listener_arn)] := by
  simp only [createOrUpdateCourierALB, hrules, hrule, hlr, hmetrics]

/-- At `exampleData` the target group requested first and handed over as `DesiredTG` is
`tg-a`, the destination of weight 90, and `CurrentTG` is `tg-b`, the destination of
weight 10. -/
theorem createOrUpdateCourierALB_desired_counterexample :
    readDestinations exampleData =
      [⟨"tg-a", ⟨90, by decide⟩⟩, ⟨"tg-b", ⟨10, by decide⟩⟩]
    ∧ createOrUpdateCourierALB id 0 0 exampleWorld exampleData =
      { outcome := .returned none
        calls :=
          [ .DescribeRules (some "listener-1"),
            .DescribeTargetGroups [some "tg-a", some "tg-b"],
            .DescribeListeners [some "listener-1"],
            .DoGradualTrafficShift
              { Listener := { ListenerArn := some "listener-1" }
                Rule := exampleRuleB
                ALBAttachments := []
                DesiredTG := { TargetGroupArn := some "tg-a" }
                CurrentTG := { TargetGroupArn := some "tg-b" }
                DeletedTGs := []
                Metrics := [] }
              { CanaryAdvancementInterval := 1000000000
                CanaryAdvancementStep := 50
                Region := ""
                ClusterName := "" } ] } := by
  decide

/-- C1, amended: when a rule exists at the priority and two destinations of different
weights are configured, the destination of the higher weight is the one requested first
from `DescribeTargetGroups`, and once both directories answer, the first target group of
the answer is handed to the traffic shift as `DesiredTG` and the second as `CurrentTG`. -/
theorem createOrUpdateCourierALB_desired_is_heavier (up : Char → Char) (hdrSeed qsSeed : Nat)
    (w : World) (d : ResourceData) (rules : List Rule) (rule : Rule) (lr : ListenerRule)
    (metrics : List Metric) (hi lo : Destination)
    (hrules : (w.New (newSession d)).DescribeRules (some d.listener_arn) = .ok rules)
    (hrule : lookupRule rules (Itoa d.priority) = some rule)
    (hlr : w.ReadListenerRule d = .ok lr)
    (hmetrics : loadMetrics w d = .ok metrics)
    (hdest : readDestinations d = [hi, lo] ∨ readDestinations d = [lo, hi])
    (hlt : lo.Weight.val < hi.Weight.val) :
    (createOrUpdateCourierALB up hdrSeed qsSeed w d).calls.take 2 =
        [ .DescribeRules (some d.listener_arn),
          .DescribeTargetGroups [some hi.TargetGroupARN, some lo.TargetGroupARN] ]
    ∧ ∀ (tg0 tg1 : TargetGroup) (tgs : List TargetGroup) (l : Listener) (ls : List Listener),
        (w.New (newSession d)).DescribeTargetGroups
            [some hi.TargetGroupARN, some lo.TargetGroupARN] = .ok (tg0 :: tg1 :: tgs) →
        (w.New (newSession d)).DescribeListeners [some lr.ListenerARN] = .ok (l :: ls) →
        (createOrUpdateCourierALB up hdrSeed qsSeed w d).calls =
          [ .DescribeRules (some d.listener_arn),
            .DescribeTargetGroups [some hi.TargetGroupARN, some lo.TargetGroupARN],
            .DescribeListeners [some lr.ListenerARN],
            .DoGradualTrafficShift
              { Listener := l
                Rule := rule
                ALBAttachments := []
                DesiredTG := tg0
                CurrentTG := tg1
                DeletedTGs := []
                Metrics := metrics }
              { CanaryAdvancementInterval := 1000000000
                CanaryAdvancementStep := 50
                Region := ""
                ClusterName := "" } ] := by
  rw [createOrUpdateCourierALB_existing up hdrSeed qsSeed w d rules rule lr metrics
    hrules hrule hlr hmetrics]
  have hnot : ¬ lo.Weight.val > hi.Weight.val := by omega
  have hgt : hi.Weight.val > lo.Weight.val := hlt
  refine ⟨?_, ?_⟩
  · rcases hdest with h | h
    · simp only [h, shiftExisting, hgt, if_true]
      cases hTG : (w.New (newSession d)).DescribeTargetGroups
          [some hi.TargetGroupARN, some lo.TargetGroupARN] with
      | error e => simp
      | ok r1 =>
        cases hL : (w.New (newSession d)).DescribeListeners (StringSlice [lr.ListenerARN]) with
        | error e => simp
        | ok listeners =>
          rcases listeners with _ | ⟨l, ls⟩
          · simp
          · rcases r1 with _ | ⟨tg0, _ | ⟨tg1, tgs⟩⟩
            · simp
            · simp
            · simp only []
              cases (w.New (newSession d)).DoGradualTrafficShift _ _ <;> simp
    · simp only [h, shiftExisting, hnot, if_false]
      cases hTG : (w.New (newSession d)).DescribeTargetGroups
          [some hi.TargetGroupARN, some lo.TargetGroupARN] with
      | error e => simp
      | ok r1 =>
        cases hL : (w.New (newSession d)).DescribeListeners (StringSlice [lr.ListenerARN]) with
        | error e => simp
        | ok listeners =>
          rcases listeners with _ | ⟨l, ls⟩
          · simp
          · rcases r1 with _ | ⟨tg0, _ | ⟨tg1, tgs⟩⟩
            · simp
            · simp
            · simp only []
              cases (w.New (newSession d)).DoGradualTrafficShift _ _ <;> simp
  · intro tg0 tg1 tgs l ls hTG hL
    have hL2 : (w.New (newSession d)).DescribeListeners (StringSlice [lr.ListenerARN]) =
        .ok (l :: ls) := hL
    rcases hdest with h | h
    · simp only [h, shiftExisting, hgt, if_true, hTG, hL2]
      cases (w.New (newSession d)).DoGradualTrafficShift _ _ <;> simp [StringSlice]
    · simp only [h, shiftExisting, hnot, if_false, hTG, hL2]
      cases (w.New (newSession d)).DoGradualTrafficShift _ _ <;> simp [StringSlice]

/-- The hypotheses of `createOrUpdateCourierALB_desired_is_heavier` hold at `exampleData`
with `tg-a` (weight 90) as the heavier and `tg-b` (weight 10) as the lighter destination,
and `tg-a` is requested first. -/
theorem createOrUpdateCourierALB_desired_is_heavier_witness :
    lookupRule [exampleRuleA, exampleRuleB] (Itoa exampleData.priority) = some exampleRuleB
    ∧ readDestinations exampleData =
        [⟨"tg-a", ⟨90, by decide⟩⟩, ⟨"tg-b", ⟨10, by decide⟩⟩]
    ∧ (10 : Int) < 90
    ∧ (createOrUpdateCourierALB id 0 0 exampleWorld exampleData).calls.take 2 =
        [ .DescribeRules (some "listener-1"),
          .DescribeTargetGroups [some "tg-a", some "tg-b"] ] :=
  ⟨by decide, by decide, by decide,
    (createOrUpdateCourierALB_desired_is_heavier id 0 0 exampleWorld exampleData
      [exampleRuleA, exampleRuleB] exampleRuleB
      { ListenerARN := "listener-1", Priority := ⟨10, by decide⟩ } []
      ⟨"tg-a", ⟨90, by decide⟩⟩ ⟨"tg-b", ⟨10, by decide⟩⟩
      rfl (by decide) rfl rfl (Or.inl (by decide)) (by decide)).1⟩

/-- Of two rules at priority 10 the lookup yields the second, `exampleRuleB`, while the
first rule of the list at that priority is `exampleRuleA`. -/
theorem lookupRule_first_match_counterexample :
    lookupRule [exampleRuleA, exampleRuleB] (Itoa ⟨10, by decide⟩) = some exampleRuleB
    ∧ [exampleRuleA, exampleRuleB].find?
        (fun r => decide (r.Priority = some (Itoa ⟨10, by decide⟩))) = some exampleRuleA
    ∧ exampleRuleA ≠ exampleRuleB := by
  decide

/-- C2, amended: the lookup yields no rule exactly when no rule carries a priority equal to
the decimal string of the priority looked for, and otherwise yields the last rule of the
list that carries it; when at most one rule carries it, that is also the first such rule. -/
theorem lookupRule_last_match (rules : List Rule) (priority : GoInt) :
    (lookupRule rules (Itoa priority) = none ↔
        ∀ r ∈ rules, ¬ (r.Priority ≠ none ∧ r.Priority = some (Itoa priority)))
    ∧ lookupRule rules (Itoa priority) =
        (rules.filter (fun r => decide (r.Priority = some (Itoa priority)))).getLast?
    ∧ ((rules.filter (fun r => decide (r.Priority = some (Itoa priority)))).length ≤ 1 →
        lookupRule rules (Itoa priority) =
          rules.find? (fun r => decide (r.Priority = some (Itoa priority)))) := by
  refine ⟨?_, lookupRule_eq_getLast? rules (Itoa priority), ?_⟩
  · rw [lookupRule_eq_getLast?, List.getLast?_eq_none_iff, List.filter_eq_nil_iff]
    constructor
    · intro h r hr hp
      exact h r hr (by simpa using hp.2)
    · intro h r hr hp
      have hp2 : r.Priority = some (Itoa priority) := by simpa using hp
      exact h r hr ⟨by rw [hp2]; simp, hp2⟩
  · intro hlen
    rw [lookupRule_eq_getLast?, ← List.filter_head?]
    generalize rules.filter (fun r => decide (r.Priority = some (Itoa priority))) = found
      at hlen
    match found, hlen with
    | [], _ => rfl
    | [_], _ => rfl
    | _ :: _ :: _, h => simp at h

/-- C3: when a rule exists at the priority and fewer than two destinations are configured,
the run ends in a panic on the index expression and returns no error; the only call it has
issued is the `DescribeRules` of the opening. -/
theorem createOrUpdateCourierALB_few_destinations_panics (up : Char → Char)
    (hdrSeed qsSeed : Nat) (w : World) (d : ResourceData) (rules : List Rule) (rule : Rule)
    (lr : ListenerRule) (metrics : List Metric)
    (hrules : (w.New (newSession d)).DescribeRules (some d.listener_arn) = .ok rules)
    (hrule : lookupRule rules (Itoa d.priority) = some rule)
    (hlr : w.ReadListenerRule d = .ok lr)
    (hmetrics : loadMetrics w d = .ok metrics)
    (hfew : (readDestinations d).length < 2) :
    (∃ reason, (createOrUpdateCourierALB up hdrSeed qsSeed w d).outcome = .panicked reason)
    ∧ (∀ err, (createOrUpdateCourierALB up hdrSeed qsSeed w d).outcome ≠ .returned err)
    ∧ (createOrUpdateCourierALB up hdrSeed qsSeed w d).calls =
        [.DescribeRules (some d.listener_arn)] := by
  rw [createOrUpdateCourierALB_existing up hdrSeed qsSeed w d rules rule lr metrics
    hrules hrule hlr hmetrics]
  match hd : readDestinations d, hfew with
  | [], _ => exact ⟨⟨_, rfl⟩, fun err h => by simp [shiftExisting] at h, rfl⟩
  | [_], _ => exact ⟨⟨_, rfl⟩, fun err h => by simp [shiftExisting] at h, rfl⟩
  | _ :: _ :: _, h => exact absurd h (by simp)

/-- At `exampleDataOneDestination` a rule exists at priority 10 and one destination is
configured; the run panics on `destinations[1]` after the `DescribeRules` call. -/
theorem createOrUpdateCourierALB_few_destinations_panics_witness :
    lookupRule [exampleRuleA, exampleRuleB] (Itoa exampleDataOneDestination.priority) =
      some exampleRuleB
    ∧ (readDestinations exampleDataOneDestination).length = 1
    ∧ createOrUpdateCourierALB id 0 0 exampleWorld exampleDataOneDestination =
        { outcome := .panicked "index out of range [1] with length 1"
          calls := [.DescribeRules (some "listener-1")] }
    ∧ (createOrUpdateCourierALB id 0 0 exampleWorld exampleDataOneDestination).calls =
        [.DescribeRules (some "listener-1")] :=
  ⟨by decide, by decide, by decide,
    (createOrUpdateCourierALB_few_destinations_panics id 0 0 exampleWorld
      exampleDataOneDestination [exampleRuleA, exampleRuleB] exampleRuleB
      { ListenerARN := "listener-1", Priority := ⟨10, by decide⟩ } []
      rfl (by decide) rfl rfl (by decide)).2.2⟩

/-- The destinations read from the resource data are the configured blocks in configured
order. -/
theorem readDestinations_eq (d : ResourceData) :
    readDestinations d =
      (d.destination.getD []).map
        (fun m => { TargetGroupARN := m.target_group_arn, Weight := m.weight }) := by
  unfold readDestinations
  cases d.destination with
  | none => rfl
  | some v =>
    simp only [Option.getD_some]
    rw [foldl_append_singleton]
    simp

/-- C11: when the rule listing and the configuration reads succeed and no rule matches the
priority, the run issues, after the `DescribeRules` of the opening, exactly one call: the
`CreateRule` whose request is `ruleCreationInput` of the listener ARN and of the rule read
from the configuration with `Destinations` set to the configured destinations in
configured order; it issues no `DescribeTargetGroups`, `DescribeListeners` or
`DoGradualTrafficShift` call. -/
theorem createOrUpdateCourierALB_creates_in_one_shot (up : Char → Char) (hdrSeed qsSeed : Nat)
    (w : World) (d : ResourceData) (rules : List Rule) (lr : ListenerRule)
    (metrics : List Metric)
    (hrules : (w.New (newSession d)).DescribeRules (some d.listener_arn) = .ok rules)
    (hrule : lookupRule rules (Itoa d.priority) = none)
    (hlr : w.ReadListenerRule d = .ok lr)
    (hmetrics : loadMetrics w d = .ok metrics) :
    (createOrUpdateCourierALB up hdrSeed qsSeed w d).calls =
        [ .DescribeRules (some d.listener_arn),
          .CreateRule (ruleCreationInput up hdrSeed qsSeed d.listener_arn
            { lr with
              Destinations := (d.destination.getD []).map
                (fun m => { TargetGroupARN := m.target_group_arn, Weight := m.weight }) }
            ).createRuleInput ]
    ∧ ((createOrUpdateCourierALB up hdrSeed qsSeed w d).calls.filter
        (fun c => match c with
          | .CreateRule _ => true
          | _ => false)).length = 1
    ∧ (∀ c ∈ (createOrUpdateCourierALB up hdrSeed qsSeed w d).calls,
        (∀ arns, c ≠ .DescribeTargetGroups arns) ∧ (∀ arns, c ≠ .DescribeListeners arns) ∧
        (∀ l opts, c ≠ .DoGradualTrafficShift l opts)) := by
  have hcalls : (createOrUpdateCourierALB up hdrSeed qsSeed w d).calls =
      [ .DescribeRules (some d.listener_arn),
        .CreateRule (ruleCreationInput up hdrSeed qsSeed d.listener_arn
          { lr with
            Destinations := (d.destination.getD []).map
              (fun m => { TargetGroupARN := m.target_group_arn, Weight := m.weight }) }
          ).createRuleInput ] := by
    simp only [createOrUpdateCourierALB, hrules, hrule, hlr, hmetrics, createNew,
      readDestinations_eq]
    cases (w.New (newSession d)).CreateRule _ with
    | error e => rfl
    | ok o =>
      cases o with
      | nil => rfl
      | cons r rs => rfl
  rw [hcalls]
  refine ⟨rfl, rfl, ?_⟩
  intro c hc
  simp only [List.mem_cons, List.mem_singleton, List.not_mem_nil, or_false] at hc
  rcases hc with rfl | rfl
  · refine ⟨?_, ?_, ?_⟩ <;> intros <;> simp
  · refine ⟨?_, ?_, ?_⟩ <;> intros <;> simp

/-- At `exampleData` over `exampleWorldNoMatch` no rule is at priority 10, and the run
issues `DescribeRules` followed by the one `CreateRule` for `tg-a` at 90 and `tg-b` at 10. -/
theorem createOrUpdateCourierALB_creates_in_one_shot_witness :
    lookupRule [exampleRuleOther, { Priority := some "default", IsDefault := some true }]
        (Itoa exampleData.priority) = none
    ∧ createOrUpdateCourierALB id 0 0 exampleWorldNoMatch exampleData =
        { outcome := .returned none
          calls :=
            [ .DescribeRules (some "listener-1"),
              .CreateRule
                { Actions :=
                    [{ ForwardConfig := some
                         { TargetGroupStickinessConfig := none
                           TargetGroups := [ { TargetGroupArn := some "tg-a", Weight := some 90 },
                                             { TargetGroupArn := some "tg-b", Weight := some 10 } ] }
                       Type_ := some "forward" }]
                  Conditions := []
                  ListenerArn := some "listener-1"
                  Priority := some 10 } ] }
    ∧ ((createOrUpdateCourierALB id 0 0 exampleWorldNoMatch exampleData).calls.filter
        (fun c => match c with
          | .CreateRule _ => true
          | _ => false)).length = 1 :=
  ⟨by decide, by decide,
    (createOrUpdateCourierALB_creates_in_one_shot id 0 0 exampleWorldNoMatch exampleData
      [exampleRuleOther, { Priority := some "default", IsDefault := some true }]
      { ListenerARN := "listener-1", Priority := ⟨10, by decide⟩ } []
      rfl (by decide) rfl rfl).2.1⟩

end Courier
